import Mathlib

/-!
Verification of the llamadb3 specification against the repository snapshot.

The repository contains only the example script `examples/basic_usage.py`
and a packaging manifest; the `llamadb3` library itself (Connection,
ConnectionPool, QueryBuilder, the error taxonomy) is not present in the
snapshot.  Library behaviour is therefore modelled from the specification
(each such definition says so in its doc comment), while the control flow
of `basic_usage.py` (`setup_database`, `cleanup`, the `__main__` block) is
embedded directly from the source.
-/

/-- Modelled from the spec: the error taxonomy of §7 (the library source
defining these error classes is missing from the snapshot). -/
inductive DatabaseError
  | ConnectionError
  | ExecutionError
  | PoolExhaustedError
  | PoolClosedError
  | BuildValidationError
deriving DecidableEq, Repr

/-- A SQL parameter value bound by the builder or passed to `execute`. -/
inductive Value
  | int (n : Int)
  | str (s : String)
deriving DecidableEq, Repr

/-- Kind of statement a `QueryBuilder` is accumulating. -/
inductive QueryType
  | none
  | selectQ
  | insertQ
  | updateQ
deriving DecidableEq, Repr

/-- Modelled from the spec: the mutable accumulator state of `QueryBuilder`
(§3, §4.1); the builder source is missing from the snapshot.  Clauses are
stored in call order together with the bound parameter values. -/
structure QueryBuilder where
  qtype : QueryType := QueryType.none
  selectCols : List String := []
  table : Option String := Option.none
  joins : List (String × String × String) := []
  whereClauses : List String := []
  whereParams : List Value := []
  groupBys : List String := []
  havingClauses : List String := []
  havingParams : List Value := []
  orderBys : List (String × Option String) := []
  insertCols : List String := []
  insertVals : List (List Value) := []
  setCols : List String := []
  setParams : List Value := []
deriving DecidableEq, Repr

/-- The empty builder, as produced by `QueryBuilder()`. -/
def QueryBuilder.empty : QueryBuilder := {}

/-- Modelled from the spec: `select(*cols)` accumulates select columns. -/
def QueryBuilder.select (b : QueryBuilder) (cols : List String) : QueryBuilder :=
  { b with qtype := QueryType.selectQ, selectCols := b.selectCols ++ cols }

/-- Modelled from the spec: `from_table(t)` records the source table. -/
def QueryBuilder.from_table (b : QueryBuilder) (t : String) : QueryBuilder :=
  { b with table := some t }

/-- Modelled from the spec: each `where` call appends a predicate with
`?`-style placeholders and records the bound value(s) in order (§4.1). -/
def QueryBuilder.where_ (b : QueryBuilder) (pred : String) (vals : List Value) : QueryBuilder :=
  { b with whereClauses := b.whereClauses ++ [pred],
           whereParams := b.whereParams ++ vals }

/-- Modelled from the spec: `left_join(t, cond)` appends a join clause. -/
def QueryBuilder.left_join (b : QueryBuilder) (t cond : String) : QueryBuilder :=
  { b with joins := b.joins ++ [("LEFT JOIN", t, cond)] }

/-- Modelled from the spec: `group_by(*cols)` accumulates grouping columns. -/
def QueryBuilder.group_by (b : QueryBuilder) (cols : List String) : QueryBuilder :=
  { b with groupBys := b.groupBys ++ cols }

/-- Modelled from the spec: `having` appends a predicate and its values. -/
def QueryBuilder.having (b : QueryBuilder) (pred : String) (vals : List Value) : QueryBuilder :=
  { b with havingClauses := b.havingClauses ++ [pred],
           havingParams := b.havingParams ++ vals }

/-- Modelled from the spec: `order_by(col, dir?)` appends an ordering term. -/
def QueryBuilder.order_by (b : QueryBuilder) (col : String) (dir : Option String) : QueryBuilder :=
  { b with orderBys := b.orderBys ++ [(col, dir)] }

/-- Modelled from the spec: `insert(t)` starts an INSERT statement. -/
def QueryBuilder.insert (b : QueryBuilder) (t : String) : QueryBuilder :=
  { b with qtype := QueryType.insertQ, table := some t }

/-- Modelled from the spec: `columns(*cols)` accumulates INSERT columns;
the call itself performs no validation (§4.1: validation happens at build
time, not at call time). -/
def QueryBuilder.columns (b : QueryBuilder) (cols : List String) : QueryBuilder :=
  { b with insertCols := b.insertCols ++ cols }

/-- Modelled from the spec: `values(tuple)` appends one tuple of values;
the call itself performs no validation. -/
def QueryBuilder.values (b : QueryBuilder) (vs : List Value) : QueryBuilder :=
  { b with insertVals := b.insertVals ++ [vs] }

/-- Modelled from the spec: `update(t)` starts an UPDATE statement. -/
def QueryBuilder.update (b : QueryBuilder) (t : String) : QueryBuilder :=
  { b with qtype := QueryType.updateQ, table := some t }

/-- Modelled from the spec: `set(col, v)` appends one assignment. -/
def QueryBuilder.set (b : QueryBuilder) (col : String) (v : Value) : QueryBuilder :=
  { b with setCols := b.setCols ++ [col], setParams := b.setParams ++ [v] }

/-- Join a list of strings with a separator (the rendering helper used by
`build`). -/
def joinSep (sep : String) : List String → String
  | [] => ""
  | [x] => x
  | x :: y :: xs => x ++ sep ++ joinSep sep (y :: xs)

/-- Render one ordering term, e.g. `age DESC`. -/
def renderOrderTerm : String × Option String → String
  | (c, some d) => c ++ " " ++ d
  | (c, Option.none) => c

/-- Modelled from the spec: rendering of an accumulated SELECT statement,
clauses in call order, predicates conjoined with AND (§4.1, §8). -/
def QueryBuilder.renderSelect (b : QueryBuilder) : String :=
  "SELECT " ++ joinSep ", " b.selectCols
    ++ (match b.table with
        | some t => " FROM " ++ t
        | Option.none => "")
    ++ String.join (b.joins.map fun j => " " ++ j.1 ++ " " ++ j.2.1 ++ " ON " ++ j.2.2)
    ++ (if b.whereClauses.isEmpty then ""
        else " WHERE " ++ joinSep " AND " b.whereClauses)
    ++ (if b.groupBys.isEmpty then ""
        else " GROUP BY " ++ joinSep ", " b.groupBys)
    ++ (if b.havingClauses.isEmpty then ""
        else " HAVING " ++ joinSep " AND " b.havingClauses)
    ++ (if b.orderBys.isEmpty then ""
        else " ORDER BY " ++ joinSep ", " (b.orderBys.map renderOrderTerm))

/-- Modelled from the spec: rendering of an INSERT with one `?` placeholder
per value (§8). -/
def renderInsert (t : String) (cols : List String) (valss : List (List Value)) : String :=
  "INSERT INTO " ++ t ++ " (" ++ joinSep ", " cols ++ ") VALUES "
    ++ joinSep ", " (valss.map fun vs => "(" ++ joinSep ", " (vs.map fun _ => "?") ++ ")")

/-- Modelled from the spec: rendering of an UPDATE with `?` placeholders for
the assigned values followed by the WHERE clause. -/
def renderUpdate (t : String) (setCols : List String) (whereClauses : List String) : String :=
  "UPDATE " ++ t ++ " SET " ++ joinSep ", " (setCols.map fun c => c ++ " = ?")
    ++ (if whereClauses.isEmpty then ""
        else " WHERE " ++ joinSep " AND " whereClauses)

/-- Modelled from the spec: terminal `build()` yields the immutable
(SQL text, parameter sequence) pair (§3, §4.1).  For an INSERT, a mismatch
between the `columns` count and any `values` tuple length fails with
`BuildValidationError` at build time. -/
def QueryBuilder.build (b : QueryBuilder) :
    Except DatabaseError (String × List Value) :=
  match b.qtype with
  | QueryType.selectQ =>
      Except.ok (b.renderSelect, b.whereParams ++ b.havingParams)
  | QueryType.insertQ =>
      if b.insertVals.all (fun vs => vs.length == b.insertCols.length) then
        Except.ok (renderInsert (b.table.getD "") b.insertCols b.insertVals,
                   b.insertVals.flatten)
      else
        Except.error DatabaseError.BuildValidationError
  | QueryType.updateQ =>
      Except.ok (renderUpdate (b.table.getD "") b.setCols b.whereClauses,
                 b.setParams ++ b.whereParams)
  | QueryType.none => Except.error DatabaseError.BuildValidationError

/-- Modelled from the spec: `get_sql()` returns the rendered SQL string for
inspection. -/
def QueryBuilder.get_sql (b : QueryBuilder) : String :=
  match b.build with
  | Except.ok (sql, _) => sql
  | Except.error _ => ""

/-- Modelled from the spec: a `build()` call as an operation on the mutable
accumulator: it reads the accumulated state and returns the pair without
mutating the builder (§4.1, §9). -/
def QueryBuilder.buildCall (b : QueryBuilder) :
    (Except DatabaseError (String × List Value)) × QueryBuilder :=
  (b.build, b)

/-- Number of `?` placeholders in a SQL string. -/
def countQ (s : String) : Nat := s.data.count '?'

/-- Fold a list of `where(pred, vals)` calls over a builder, in order. -/
def applyWheres (b : QueryBuilder) (ps : List (String × List Value)) : QueryBuilder :=
  ps.foldl (fun acc pr => acc.where_ pr.1 pr.2) b

/-- Fold a list of `values(tuple)` calls over a builder, in order. -/
def applyValues (b : QueryBuilder) (vss : List (List Value)) : QueryBuilder :=
  vss.foldl (fun acc vs => acc.values vs) b

/-- Modelled from the spec: the bookkeeping state of a `ConnectionPool`
(§3, §4.3, §5); the pool source is missing from the snapshot.  Connections
are tracked by count per slot state (idle, leased, closed), together with
the configured bounds and the shut-down flag. -/
structure PoolState where
  minConnections : Nat
  maxConnections : Nat
  idleCount : Nat
  leasedCount : Nat
  closedCount : Nat
  isClosed : Bool
deriving DecidableEq, Repr

/-- Modelled from the spec: a freshly constructed pool holds its minimum
number of idle Connections and no leased ones. -/
def initPool (minC maxC : Nat) : PoolState :=
  { minConnections := minC, maxConnections := maxC,
    idleCount := minC, leasedCount := 0, closedCount := 0, isClosed := false }

/-- Modelled from the spec: `connection()` acquisition (§4.3): after
`close_all` it fails with `PoolClosedError`; otherwise it leases an idle
Connection, or opens a new one if under `max_connections` and none is
idle, or fails with `PoolExhaustedError` at the cap. -/
def PoolState.connection (p : PoolState) : Except DatabaseError PoolState :=
  if p.isClosed then
    Except.error DatabaseError.PoolClosedError
  else if 0 < p.idleCount then
    Except.ok { p with idleCount := p.idleCount - 1, leasedCount := p.leasedCount + 1 }
  else if p.idleCount + p.leasedCount < p.maxConnections then
    Except.ok { p with leasedCount := p.leasedCount + 1 }
  else
    Except.error DatabaseError.PoolExhaustedError

/-- Modelled from the spec: scope exit returns the leased Connection to the
idle set (§4.3). -/
def PoolState.release (p : PoolState) : PoolState :=
  if 0 < p.leasedCount then
    { p with idleCount := p.idleCount + 1, leasedCount := p.leasedCount - 1 }
  else p

/-- Modelled from the spec: `close_all()` closes every Connection, idle or
leased, and marks the pool closed so no further leasing succeeds (§4.3). -/
def PoolState.close_all (p : PoolState) : PoolState :=
  { p with idleCount := 0, leasedCount := 0,
           closedCount := p.closedCount + p.idleCount + p.leasedCount,
           isClosed := true }

/-- One bookkeeping operation on the pool, for the reachability argument. -/
inductive PoolOp
  | lease
  | release
  | closeAll
deriving DecidableEq, Repr

/-- Apply one pool operation; a failed lease leaves the state unchanged. -/
def applyOp (p : PoolState) : PoolOp → PoolState
  | PoolOp.lease =>
      match p.connection with
      | Except.ok p2 => p2
      | Except.error _ => p
  | PoolOp.release => p.release
  | PoolOp.closeAll => p.close_all

/-- A pool state reached from the initial state by a sequence of
operations. -/
def runOps (p : PoolState) (ops : List PoolOp) : PoolState :=
  ops.foldl applyOp p

/-- Outcome events recorded by a pooled transaction scope. -/
inductive TxEvent
  | committed
  | rolledBack
deriving DecidableEq, Repr

/-- Errors escaping a pooled transaction scope: either acquisition failed,
or the body's error is re-raised. -/
inductive TxError (E : Type)
  | poolError (pe : DatabaseError)
  | bodyError (e : E)

/-- Result of running a pooled transaction scope: the caller-visible
outcome, the pool state afterwards, the database state afterwards, and the
commit/rollback events that occurred. -/
structure TxResult (Db E : Type) where
  result : Except (TxError E) Unit
  pool : PoolState
  db : Db
  events : List TxEvent

/-- Modelled from the spec: `transaction()` (§4.3): same acquisition
semantics as `connection()`; on clean scope exit `commit()` is invoked
automatically and the Connection returns to idle; on an error raised inside
the scope the transaction is rolled back (database state unchanged), the
Connection returns to idle, and the error is re-raised. -/
def PoolState.transaction {Db E : Type} (p : PoolState) (db : Db)
    (body : Db → Except E Db) : TxResult Db E :=
  match p.connection with
  | Except.error pe => ⟨Except.error (TxError.poolError pe), p, db, []⟩
  | Except.ok p2 =>
      match body db with
      | Except.ok db2 =>
          ⟨Except.ok (), p2.release, db2, [TxEvent.committed]⟩
      | Except.error e =>
          ⟨Except.error (TxError.bodyError e), p2.release, db, [TxEvent.rolledBack]⟩

/-- Modelled from the spec: the state of a single `Connection` (§3, §4.2):
whether it is open, and the validity flag of each Cursor it has produced. -/
structure Connection where
  isOpen : Bool
  cursorsValid : List Bool
deriving DecidableEq, Repr

/-- Modelled from the spec: `close()` releases the underlying handle and
invalidates all Cursors the Connection produced; closing an already-closed
Connection is a no-op, not an error (§4.2). -/
def Connection.close (c : Connection) : Connection :=
  if c.isOpen then
    { isOpen := false, cursorsValid := c.cursorsValid.map fun _ => false }
  else c

/-- Filesystem state visible to `basic_usage.py`: whether `example.db`
exists (embedded from the source; `DB_FILE = "example.db"`). -/
structure FsState where
  dbFileExists : Bool
deriving DecidableEq, Repr

/-- Embedded from `examples/basic_usage.py` lines 315-319: `cleanup()`
removes the example database file if it exists. -/
def cleanup (fs : FsState) : FsState :=
  if fs.dbFileExists then { dbFileExists := false } else fs

/-- Run the steps of the `try` block of the `__main__` guard in order.
Each step returns the filesystem state at its exit and whether it raised;
a raising step aborts the rest of the block (the `except Exception` clause
only logs). -/
def runSteps : List (FsState → FsState × Bool) → FsState → FsState
  | [], fs => fs
  | st :: rest, fs =>
      let r := st fs
      if r.2 then r.1 else runSteps rest r.1

/-- Embedded from `examples/basic_usage.py` lines 322-336: the `__main__`
guard runs `setup_database` and the example functions inside `try`, catches
any `Exception`, and runs `cleanup()` in the `finally` clause on every exit
path. -/
def mainEntry (steps : List (FsState → FsState × Bool)) (fs : FsState) : FsState :=
  cleanup (runSteps steps fs)

/-- A row of the `users` table as inserted by `setup_database`
(name, email, age, created_at); the AUTOINCREMENT id is implicit. -/
structure UserRow where
  name : String
  email : String
  age : Nat
  createdAt : String
deriving DecidableEq, Repr

/-- A row of the `orders` table as inserted by `setup_database`
(user_id, amount, status, created_at); the REAL amount is modelled as an
exact rational. -/
structure OrderRow where
  userId : Nat
  amount : Rat
  status : String
  createdAt : String
deriving DecidableEq, Repr

/-- Database state seen by `setup_database`: each table is `none` when it
does not exist yet, otherwise its list of rows. -/
structure DbState where
  users : Option (List UserRow)
  orders : Option (List OrderRow)
deriving DecidableEq, Repr

/-- Observable writes performed by `setup_database`. -/
inductive SetupEvent
  | insertUsers (n : Nat)
  | insertOrders (n : Nat)
  | commit
deriving DecidableEq, Repr

/-- Embedded from `examples/basic_usage.py` lines 67-73: the sample users. -/
def sampleUsers : List UserRow :=
  [⟨"John Doe", "john@example.com", 35, "2023-01-01"⟩,
   ⟨"Jane Smith", "jane@example.com", 28, "2023-01-15"⟩,
   ⟨"Bob Johnson", "bob@example.com", 42, "2023-02-10"⟩,
   ⟨"Alice Brown", "alice@example.com", 31, "2023-03-05"⟩,
   ⟨"Charlie Wilson", "charlie@example.com", 25, "2023-04-20"⟩]

/-- Embedded from `examples/basic_usage.py` lines 81-89: the sample orders. -/
def sampleOrders : List OrderRow :=
  [⟨1, 150, "completed", "2023-02-15"⟩,
   ⟨1, 151 / 2, "completed", "2023-03-10"⟩,
   ⟨2, 220, "completed", "2023-02-20"⟩,
   ⟨3, 3599 / 100, "pending", "2023-04-25"⟩,
   ⟨4, 503 / 4, "completed", "2023-04-12"⟩,
   ⟨5, 8999 / 100, "cancelled", "2023-05-01"⟩,
   ⟨2, 89 / 2, "pending", "2023-05-10"⟩]

/-- Embedded from `examples/basic_usage.py` lines 30-101: `setup_database`
creates the two tables with CREATE TABLE IF NOT EXISTS, counts the rows of
`users`, and only when the count is zero inserts the sample users and
orders and commits; otherwise it performs no write.  The returned event
list records the inserts and the commit that occurred. -/
def setup_database (db : DbState) : DbState × List SetupEvent :=
  let db1 : DbState :=
    { users := some (db.users.getD []), orders := some (db.orders.getD []) }
  if (db1.users.getD []).length = 0 then
    ({ users := some ((db1.users.getD []) ++ sampleUsers),
       orders := some ((db1.orders.getD []) ++ sampleOrders) },
     [SetupEvent.insertUsers sampleUsers.length,
      SetupEvent.insertOrders sampleOrders.length,
      SetupEvent.commit])
  else
    (db1, [])

/-! ### Helper lemmas -/

theorem countQ_append (a b : String) : countQ (a ++ b) = countQ a + countQ b := by
  simp [countQ, String.data_append, List.count_append]

theorem countQ_joinSep (sep : String) (hsep : countQ sep = 0) (l : List String) :
    countQ (joinSep sep l) = (l.map countQ).sum := by
  induction l with
  | nil => simp [joinSep, countQ]
  | cons x xs ih =>
    cases xs with
    | nil => simp [joinSep]
    | cons y ys =>
      simp only [joinSep, countQ_append, hsep, List.map_cons, List.sum_cons] at ih ⊢
      omega

theorem applyWheres_eq (ps : List (String × List Value)) (b : QueryBuilder) :
    applyWheres b ps =
      { b with whereClauses := b.whereClauses ++ ps.map Prod.fst,
               whereParams := b.whereParams ++ (ps.map Prod.snd).flatten } := by
  induction ps generalizing b with
  | nil => simp [applyWheres]
  | cons p ps ih =>
    have hstep : applyWheres b (p :: ps) = applyWheres (b.where_ p.1 p.2) ps := rfl
    rw [hstep, ih]
    simp [QueryBuilder.where_]

theorem applyValues_eq (vss : List (List Value)) (b : QueryBuilder) :
    applyValues b vss = { b with insertVals := b.insertVals ++ vss } := by
  induction vss generalizing b with
  | nil => simp [applyValues]
  | cons v vs ih =>
    have hstep : applyValues b (v :: vs) = applyValues (b.values v) vs := rfl
    rw [hstep, ih]
    simp [QueryBuilder.values]

/-! ### Claims -/

/-- Claim C3: building `QueryBuilder().select("*").from_table("users")
.where("age > ?", 30)` then `.build()` yields exactly the SQL
`SELECT * FROM users WHERE age > ?` and the parameter sequence `(30,)`. -/
theorem example_select_where_build :
    (((QueryBuilder.empty.select ["*"]).from_table "users").where_ "age > ?"
        [Value.int 30]).build =
      Except.ok ("SELECT * FROM users WHERE age > ?", [Value.int 30]) := by
  rfl

/-- Claim C6: after `close_all()`, every Connection the pool owned (idle or
leased) is closed — the closed tally absorbs them all and none remains idle
or leased — and a subsequent `connection()` call fails with
`PoolClosedError` instead of leasing. -/
theorem close_all_spec (p : PoolState) :
    (p.close_all).idleCount = 0 ∧ (p.close_all).leasedCount = 0 ∧
    (p.close_all).closedCount = p.closedCount + p.idleCount + p.leasedCount ∧
    (p.close_all).connection = Except.error DatabaseError.PoolClosedError := by
  refine ⟨rfl, rfl, rfl, ?_⟩
  simp [PoolState.connection, PoolState.close_all]

/-- Claim C7: a `build()` call reads the accumulated builder state without
mutating it, so calling `build()` twice without intervening mutations
returns the same (SQL, parameters) pair both times. -/
theorem build_deterministic (b : QueryBuilder) :
    (b.buildCall).1 = ((b.buildCall).2.buildCall).1 := by
  rfl

/-- Claim C8: the first `close()` on an open Connection releases the handle
and invalidates every Cursor the Connection produced, and a second
`close()` is a no-op (it returns the same closed state and raises no
error). -/
theorem connection_close_spec (c : Connection) (h : c.isOpen = true) :
    (c.close).isOpen = false ∧ (∀ v ∈ (c.close).cursorsValid, v = false) ∧
    (c.close).close = c.close := by
  constructor
  · simp [Connection.close, h]
  constructor
  · intro v hv
    simp [Connection.close, h] at hv
    exact hv.2
  · simp [Connection.close, h]

/-- Witness for C8 at a concrete open Connection with two live cursors. -/
theorem connection_close_spec_witness :
    (Connection.close ⟨true, [true, true]⟩).isOpen = false ∧
    (∀ v ∈ (Connection.close ⟨true, [true, true]⟩).cursorsValid, v = false) ∧
    (Connection.close ⟨true, [true, true]⟩).close =
      Connection.close ⟨true, [true, true]⟩ :=
  connection_close_spec ⟨true, [true, true]⟩ rfl

/-- Claim C9: the `__main__` guard runs `cleanup()` in its `finally` clause
on every exit path — whether every step of the `try` block completes or any
step raises — so `example.db` never remains on disk after the script
exits. -/
theorem main_always_removes_db_file
    (steps : List (FsState → FsState × Bool)) (fs : FsState) :
    (mainEntry steps fs).dbFileExists = false := by
  unfold mainEntry cleanup
  split
  · rfl
  · next h => simpa using h

theorem connection_ok_fields (p q : PoolState) (h : p.connection = Except.ok q) :
    q.maxConnections = p.maxConnections ∧ q.isClosed = p.isClosed ∧
    q.leasedCount = p.leasedCount + 1 ∧
    (p.leasedCount + p.idleCount ≤ p.maxConnections →
      q.leasedCount + q.idleCount ≤ p.maxConnections) := by
  unfold PoolState.connection at h
  split_ifs at h with h1 h2 h3
  · injection h with h4
    subst h4
    refine ⟨rfl, rfl, rfl, fun hb => ?_⟩
    simp
    omega
  · injection h with h4
    subst h4
    refine ⟨rfl, rfl, rfl, fun hb => ?_⟩
    simp
    omega

theorem release_fields (q : PoolState) (h : 0 < q.leasedCount) :
    (q.release).leasedCount = q.leasedCount - 1 ∧
    (q.release).idleCount = q.idleCount + 1 := by
  simp [PoolState.release, h]

/-- Claim C1: a pooled `transaction()` scope: when acquisition succeeds and
the body raises, the transaction is rolled back (the database state is left
unchanged), the error is re-raised to the caller, and the leased Connection
is returned to the pool's idle set (leased count back to its pre-scope
value, idle count one above the post-lease value); when the body completes
without error, `commit()` is invoked automatically on scope exit and the
Connection likewise returns to idle. -/
theorem transaction_spec {Db E : Type} (p q : PoolState) (db : Db)
    (body : Db → Except E Db) (h : p.connection = Except.ok q) :
    (∀ e, body db = Except.error e →
        (p.transaction db body).result = Except.error (TxError.bodyError e) ∧
        (p.transaction db body).db = db ∧
        (p.transaction db body).events = [TxEvent.rolledBack] ∧
        (p.transaction db body).pool.leasedCount = p.leasedCount ∧
        (p.transaction db body).pool.idleCount = q.idleCount + 1) ∧
    (∀ db2, body db = Except.ok db2 →
        (p.transaction db body).result = Except.ok () ∧
        (p.transaction db body).db = db2 ∧
        (p.transaction db body).events = [TxEvent.committed] ∧
        (p.transaction db body).pool.leasedCount = p.leasedCount ∧
        (p.transaction db body).pool.idleCount = q.idleCount + 1) := by
  have hq := connection_ok_fields p q h
  have hl : 0 < q.leasedCount := by omega
  have hr := release_fields q hl
  constructor
  · intro e he
    unfold PoolState.transaction
    rw [h, he]
    exact ⟨rfl, rfl, rfl, by rw [hr.1]; omega, hr.2⟩
  · intro db2 he
    unfold PoolState.transaction
    rw [h, he]
    exact ⟨rfl, rfl, rfl, by rw [hr.1]; omega, hr.2⟩

/-- Witness for C1: a concrete pool of one idle Connection and a body that
raises; the scope rolls back. -/
theorem transaction_spec_witness :
    ((initPool 1 2).transaction (0 : Nat) (fun _ => Except.error ())).events =
      [TxEvent.rolledBack] :=
  ((transaction_spec (initPool 1 2) ⟨1, 2, 0, 1, 0, false⟩ 0
      (fun _ => Except.error ()) rfl).1 () rfl).2.2.1

theorem applyOp_bound (p : PoolState) (op : PoolOp)
    (h : p.leasedCount + p.idleCount ≤ p.maxConnections) :
    (applyOp p op).leasedCount + (applyOp p op).idleCount ≤
        (applyOp p op).maxConnections ∧
    (applyOp p op).maxConnections = p.maxConnections := by
  cases op with
  | lease =>
    simp only [applyOp]
    cases hc : p.connection with
    | ok q =>
      have hq := connection_ok_fields p q hc
      refine ⟨?_, hq.1⟩
      rw [hq.1]
      exact hq.2.2.2 h
    | error e => exact ⟨h, rfl⟩
  | release =>
    simp only [applyOp]
    unfold PoolState.release
    split_ifs with h1 <;> simp <;> omega
  | closeAll =>
    simp only [applyOp]
    unfold PoolState.close_all
    simp

theorem runOps_bound (ops : List PoolOp) (p : PoolState)
    (h : p.leasedCount + p.idleCount ≤ p.maxConnections) :
    (runOps p ops).leasedCount + (runOps p ops).idleCount ≤
        (runOps p ops).maxConnections ∧
    (runOps p ops).maxConnections = p.maxConnections := by
  induction ops generalizing p with
  | nil => exact ⟨h, rfl⟩
  | cons op ops ih =>
    have h1 := applyOp_bound p op h
    have h2 := ih (applyOp p op) h1.1
    exact ⟨h2.1, h2.2.trans h1.2⟩

/-- Claim C2: for every state of a pool constructed with
`min_connections` and `max_connections` (min ≤ max, both positive) that is
reachable by any sequence of lease, release and close-all operations, the
number of live Connections — leased plus idle — never exceeds
`max_connections`. -/
theorem pool_never_exceeds_max (minC maxC : Nat) (hpos : 0 < minC)
    (hle : minC ≤ maxC) (ops : List PoolOp) :
    (runOps (initPool minC maxC) ops).leasedCount +
      (runOps (initPool minC maxC) ops).idleCount ≤ maxC := by
  have h0 : (initPool minC maxC).leasedCount + (initPool minC maxC).idleCount ≤
      (initPool minC maxC).maxConnections := by
    simp [initPool]
    omega
  have h := runOps_bound ops (initPool minC maxC) h0
  have hmax : (runOps (initPool minC maxC) ops).maxConnections = maxC := h.2
  rw [hmax] at h
  exact h.1

/-- Witness for C2: a concrete pool (min 2, max 5) driven through a
sequence of leases and a release stays within the bound. -/
theorem pool_never_exceeds_max_witness :
    (runOps (initPool 2 5)
        [PoolOp.lease, PoolOp.lease, PoolOp.lease, PoolOp.release,
         PoolOp.lease]).leasedCount +
      (runOps (initPool 2 5)
        [PoolOp.lease, PoolOp.lease, PoolOp.lease, PoolOp.release,
         PoolOp.lease]).idleCount ≤ 5 :=
  pool_never_exceeds_max 2 5 (by decide) (by decide)
    [PoolOp.lease, PoolOp.lease, PoolOp.lease, PoolOp.release, PoolOp.lease]

/-- Claim C10: `setup_database` is idempotent with respect to table
contents: when the `users` table is already non-empty it performs no
inserts and no commit (the event list is empty) and leaves the existing
rows of both the `users` and `orders` tables unchanged. -/
theorem setup_database_idempotent (db : DbState) (us : List UserRow)
    (h : db.users = some us) (hne : us ≠ []) :
    (setup_database db).2 = [] ∧
    (setup_database db).1.users = db.users ∧
    (setup_database db).1.orders.getD [] = db.orders.getD [] := by
  unfold setup_database
  simp [h, hne]

/-- Witness for C10: a database whose `users` table already holds one row
is left untouched. -/
theorem setup_database_idempotent_witness :
    (setup_database ⟨some [⟨"A", "a", 1, "d"⟩], some []⟩).2 = [] ∧
    (setup_database ⟨some [⟨"A", "a", 1, "d"⟩], some []⟩).1.users =
      (DbState.mk (some [⟨"A", "a", 1, "d"⟩]) (some [])).users ∧
    (setup_database ⟨some [⟨"A", "a", 1, "d"⟩], some []⟩).1.orders.getD [] =
      (DbState.mk (some [⟨"A", "a", 1, "d"⟩]) (some [])).orders.getD [] :=
  setup_database_idempotent ⟨some [⟨"A", "a", 1, "d"⟩], some []⟩
    [⟨"A", "a", 1, "d"⟩] rfl (by decide)

theorem build_select_wheres (cols : List String) (t : String)
    (ws : List String) (vs : List Value) (hw : ws ≠ []) :
    (QueryBuilder.build
      { QueryBuilder.empty with qtype := QueryType.selectQ, selectCols := cols,
                                table := some t, whereClauses := ws,
                                whereParams := vs }) =
      Except.ok ("SELECT " ++ joinSep ", " cols ++ (" FROM " ++ t) ++
        (" WHERE " ++ joinSep " AND " ws), vs) := by
  simp [QueryBuilder.build, QueryBuilder.renderSelect, QueryBuilder.empty, hw,
    String.join]

theorem countQ_sum_zero (l : List String) (h : ∀ c ∈ l, countQ c = 0) :
    countQ (joinSep ", " l) = 0 := by
  rw [countQ_joinSep ", " (by decide) l]
  simp only [List.sum_eq_zero_iff, List.mem_map]
  rintro n ⟨c, hc, rfl⟩
  exact h c hc

theorem countQ_placeholders (vs : List Value) :
    countQ (joinSep ", " (vs.map fun _ => "?")) = vs.length := by
  rw [countQ_joinSep ", " (by decide)]
  induction vs with
  | nil => simp
  | cons v vs ih =>
    have h1 : countQ "?" = 1 := by decide
    simp only [List.map_cons, List.sum_cons, List.length_cons, h1] at ih ⊢
    omega

/-- Claim C4: for every sequence of `where(...)` calls on a select builder,
the rendered SQL conjoins the given predicates with AND in call order, and
the built parameter sequence is the concatenation of the bound values in
call order; when each predicate carries one `?` per bound value (and the
column and table names carry none), the SQL has exactly as many
placeholders as the parameter sequence has values. -/
theorem where_calls_conjoined (cols : List String) (t : String)
    (ps : List (String × List Value)) (hne : ps ≠ [])
    (hcols : ∀ c ∈ cols, countQ c = 0) (ht : countQ t = 0)
    (hps : ∀ pr ∈ ps, countQ pr.1 = pr.2.length) :
    (applyWheres ((QueryBuilder.empty.select cols).from_table t) ps).build =
      Except.ok
        ("SELECT " ++ joinSep ", " cols ++ (" FROM " ++ t) ++
           (" WHERE " ++ joinSep " AND " (ps.map Prod.fst)),
         (ps.map Prod.snd).flatten) ∧
    countQ ("SELECT " ++ joinSep ", " cols ++ (" FROM " ++ t) ++
           (" WHERE " ++ joinSep " AND " (ps.map Prod.fst))) =
      ((ps.map Prod.snd).flatten).length := by
  have hb : applyWheres ((QueryBuilder.empty.select cols).from_table t) ps =
      { QueryBuilder.empty with qtype := QueryType.selectQ, selectCols := cols,
                                table := some t,
                                whereClauses := ps.map Prod.fst,
                                whereParams := (ps.map Prod.snd).flatten } := by
    rw [applyWheres_eq]
    simp [QueryBuilder.empty, QueryBuilder.select, QueryBuilder.from_table]
  have hwne : ps.map Prod.fst ≠ [] := by simpa using hne
  constructor
  · rw [hb]
    exact build_select_wheres cols t (ps.map Prod.fst) ((ps.map Prod.snd).flatten) hwne
  · rw [countQ_append, countQ_append, countQ_append, countQ_append,
      countQ_append]
    have h1 : countQ "SELECT " = 0 := by decide
    have h2 : countQ " FROM " = 0 := by decide
    have h3 : countQ " WHERE " = 0 := by decide
    have h4 : countQ (joinSep ", " cols) = 0 := countQ_sum_zero cols hcols
    have h5 : countQ (joinSep " AND " (ps.map Prod.fst)) =
        ((ps.map Prod.snd).flatten).length := by
      rw [countQ_joinSep " AND " (by decide)]
      rw [List.length_flatten]
      rw [List.map_map, List.map_map]
      have h6 : ps.map (countQ ∘ Prod.fst) = ps.map (List.length ∘ Prod.snd) :=
        List.map_congr_left fun pr hpr => hps pr hpr
      rw [h6]
    rw [h1, h2, h3, h4, h5, ht]
    omega

/-- Witness for C4: two `where` calls render with AND in call order and the
parameters follow placeholder order. -/
theorem where_calls_conjoined_witness :
    (applyWheres ((QueryBuilder.empty.select ["*"]).from_table "users")
        [("age > ?", [Value.int 30]), ("name = ?", [Value.str "Bob"])]).build =
      Except.ok ("SELECT * FROM users WHERE age > ? AND name = ?",
                 [Value.int 30, Value.str "Bob"]) :=
  ((where_calls_conjoined ["*"] "users"
      [("age > ?", [Value.int 30]), ("name = ?", [Value.str "Bob"])]
      (by decide) (by decide) (by decide) (by decide)).1).trans (by rfl)

theorem countQ_row (vs : List Value) :
    countQ ("(" ++ joinSep ", " (vs.map fun _ => "?") ++ ")") = vs.length := by
  rw [countQ_append, countQ_append, countQ_placeholders]
  have h1 : countQ "(" = 0 := by decide
  have h2 : countQ ")" = 0 := by decide
  omega

theorem countQ_renderInsert (t : String) (cols : List String)
    (valss : List (List Value)) (ht : countQ t = 0)
    (hcols : ∀ c ∈ cols, countQ c = 0) :
    countQ (renderInsert t cols valss) = valss.flatten.length := by
  unfold renderInsert
  rw [countQ_append, countQ_append, countQ_append, countQ_append, countQ_append]
  have h1 : countQ "INSERT INTO " = 0 := by decide
  have h2 : countQ " (" = 0 := by decide
  have h3 : countQ ") VALUES " = 0 := by decide
  have h4 : countQ (joinSep ", " cols) = 0 := countQ_sum_zero cols hcols
  have h5 : countQ (joinSep ", "
      (valss.map fun vs => "(" ++ joinSep ", " (vs.map fun _ => "?") ++ ")")) =
      valss.flatten.length := by
    rw [countQ_joinSep ", " (by decide), List.map_map, List.length_flatten]
    have h6 : valss.map
        (countQ ∘ fun vs => "(" ++ joinSep ", " (vs.map fun _ => "?") ++ ")") =
        valss.map List.length :=
      List.map_congr_left fun vs _ => countQ_row vs
    rw [h6]
  rw [h1, h2, h3, h4, h5, ht]
  omega

/-- Claim C5: for an INSERT built with `insert(...).columns(...).values(...)`
the accumulating calls themselves never raise (they only record the data);
at build time a length mismatch between the columns and any values tuple
fails with `BuildValidationError`, while matching lengths produce SQL with
exactly one `?` placeholder per value and the values, flattened in call
order, as the parameter sequence. -/
theorem insert_build_validation (t : String) (cols : List String)
    (valss : List (List Value)) (ht : countQ t = 0)
    (hcols : ∀ c ∈ cols, countQ c = 0) :
    (applyValues ((QueryBuilder.empty.insert t).columns cols) valss).insertCols
        = cols ∧
    (applyValues ((QueryBuilder.empty.insert t).columns cols) valss).insertVals
        = valss ∧
    ((∃ vs ∈ valss, vs.length ≠ cols.length) →
      (applyValues ((QueryBuilder.empty.insert t).columns cols) valss).build =
        Except.error DatabaseError.BuildValidationError) ∧
    ((∀ vs ∈ valss, vs.length = cols.length) →
      (applyValues ((QueryBuilder.empty.insert t).columns cols) valss).build =
        Except.ok (renderInsert t cols valss, valss.flatten) ∧
      countQ (renderInsert t cols valss) = valss.flatten.length) := by
  have hb : applyValues ((QueryBuilder.empty.insert t).columns cols) valss =
      { QueryBuilder.empty with qtype := QueryType.insertQ, table := some t,
                                insertCols := cols, insertVals := valss } := by
    rw [applyValues_eq]
    simp [QueryBuilder.empty, QueryBuilder.insert, QueryBuilder.columns]
  refine ⟨by rw [hb], by rw [hb], ?_, ?_⟩
  · rintro ⟨vs, hvs, hlen⟩
    rw [hb]
    have hall : valss.all (fun vs => vs.length == cols.length) = false := by
      rw [Bool.eq_false_iff]
      intro hc
      rw [List.all_eq_true] at hc
      exact hlen (by simpa using hc vs hvs)
    simp [QueryBuilder.build, hall]
  · intro hmatch
    have hall : valss.all (fun vs => vs.length == cols.length) = true := by
      rw [List.all_eq_true]
      intro vs hvs
      simpa using hmatch vs hvs
    constructor
    · rw [hb]
      simp [QueryBuilder.build, hall]
    · exact countQ_renderInsert t cols valss ht hcols

/-- Witness for C5: a matching (2 columns, one 2-value tuple) INSERT builds
with one placeholder per value. -/
theorem insert_build_validation_witness :
    (applyValues ((QueryBuilder.empty.insert "users").columns ["name", "age"])
        [[Value.str "Bob", Value.int 42]]).build =
      Except.ok ("INSERT INTO users (name, age) VALUES (?, ?)",
                 [Value.str "Bob", Value.int 42]) :=
  (((insert_build_validation "users" ["name", "age"]
      [[Value.str "Bob", Value.int 42]] (by decide) (by decide)).2.2.2
      (by decide)).1).trans (by rfl)
